import Mathlib

/-!
Verification development for the configuration module of keymap-drawer
(src/keymap_drawer/config.py). The module declares three pydantic
BaseSettings classes: DrawConfig, ParseConfig and Config. We embed the
declared fields, their default values (including defaults derived from
sibling defaults at class-body time), the dedented default stylesheet and
the keycode-to-glyph dictionary literal, and model construction with
caller overrides.
-/

set_option maxRecDepth 100000

/-- Association-list lookup keyed by strings; returns the value of the first
entry whose key equals the query. Models Python dict lookup once keys are
unique, and kwargs/schema lookup in general. -/
def alookup {α : Type} : List (String × α) → String → Option α
  | [], _ => none
  | (k, v) :: t, q => if q = k then some v else alookup t q

/-- Membership test of a string in a list of strings. -/
def memStr (k : String) : List String → Bool
  | [] => false
  | f :: t => if k = f then true else memStr k t

/-- Single insertion step of CPython dict construction: if the key is
already present, the value is updated in place; otherwise the pair is
appended at the end. -/
def setKey : List (String × String) → String → String → List (String × String)
  | [], k, v => [(k, v)]
  | (k0, v0) :: t, k, v => if k = k0 then (k0, v) :: t else (k0, v0) :: setKey t k v

/-- Evaluation of a Python dict display: entries are inserted left to right,
so a duplicated key retains the last value written for it. -/
def pyDict (es : List (String × String)) : List (String × String) :=
  es.foldl (fun m p => setKey m p.1 p.2) []

/-- Longest common prefix of two character lists, used for the margin
computation of textwrap.dedent. -/
def commonPrefix : List Char → List Char → List Char
  | a :: as, b :: bs => if a = b then a :: commonPrefix as bs else []
  | _, _ => []

/-- Whitespace characters considered by textwrap.dedent (space and tab). -/
def isWsChar (c : Char) : Bool := c == ' ' || c == '\t'

/-- A line consisting solely of whitespace (nonempty, all spaces or tabs),
matching the regular expression used by textwrap.dedent. -/
def lineIsWsOnly (l : String) : Bool := !l.isEmpty && l.toList.all isWsChar

/-- A line that contains at least one non-whitespace character. -/
def lineHasContent (l : String) : Bool := l.toList.any (fun c => !isWsChar c)

/-- Leading whitespace of a line. -/
def leadingWs (l : String) : List Char := l.toList.takeWhile isWsChar

/-- Splitting of a character list into lines at newline characters. -/
def splitLinesAux : List Char → List Char → List String
  | [], acc => [String.mk acc.reverse]
  | c :: cs, acc =>
    if c = '\n' then String.mk acc.reverse :: splitLinesAux cs []
    else splitLinesAux cs (c :: acc)

/-- Splitting of a string into its lines, every newline a separator. -/
def splitLines (s : String) : List String := splitLinesAux s.toList []

/-- Model of textwrap.dedent: whitespace-only lines are normalized to empty
lines, the common leading whitespace of the remaining lines is computed,
and that margin is removed from every line that starts with it. -/
def dedent (text : String) : String :=
  let lines := (splitLines text).map (fun l => if lineIsWsOnly l then "" else l)
  let indents := (lines.filter lineHasContent).map leadingWs
  let margin := match indents with
    | [] => ([] : List Char)
    | i :: is => is.foldl commonPrefix i
  let stripLine := fun (l : String) =>
    if margin.isEmpty then l
    else if margin.isPrefixOf l.toList then String.mk (l.toList.drop margin.length) else l
  String.intercalate "\n" (lines.map stripLine)

/-- Boolean prefix test on character lists. -/
def listPrefix : List Char → List Char → Bool
  | [], _ => true
  | _ :: _, [] => false
  | a :: as, b :: bs => a == b && listPrefix as bs

/-- Boolean contiguous-substring test on character lists. -/
def listInfix (n : List Char) : List Char → Bool
  | [] => listPrefix n []
  | b :: t => listPrefix n (b :: t) || listInfix n t

/-- Substring containment test on strings. -/
def containsSub (needle hay : String) : Bool := listInfix needle.toList hay.toList

/-- The indented triple-quoted stylesheet literal of the source, line by
line: every line of the Python literal carries the 8-space body indentation
(12 spaces for rule bodies), blank lines are empty, and the literal ends
with the 4-space line preceding the closing quotes. -/
def svgStyleRawLines : List String := [
  "        /* font and background color specifications */",
  "        svg \x7b",
  "            font-family: SFMono-Regular,Consolas,Liberation Mono,Menlo,monospace;",
  "            font-size: 14px;",
  "            font-kerning: normal;",
  "            text-rendering: optimizeLegibility;",
  "            fill: #24292e;",
  "        \x7d",
  "",
  "        /* default key styling */",
  "        rect \x7b",
  "            fill: #f6f8fa;",
  "            stroke: #d6d8da;",
  "            stroke-width: 1;",
  "        \x7d",
  "",
  "        /* color accent for held keys */",
  "        .held \x7b",
  "            fill: #fdd;",
  "        \x7d",
  "",
  "        /* color accent for combo boxes */",
  "        .combo \x7b",
  "            fill: #cdf;",
  "        \x7d",
  "",
  "        /* color accent for ghost (optional) keys */",
  "        .ghost \x7b",
  "            fill: #ddd;",
  "        \x7d",
  "",
  "        text \x7b",
  "            text-anchor: middle;",
  "            dominant-baseline: middle;",
  "        \x7d",
  "",
  "        /* styling for layer labels */",
  "        .label \x7b",
  "            font-weight: bold;",
  "            text-anchor: start;",
  "            stroke: white;",
  "            stroke-width: 2;",
  "            paint-order: stroke;",
  "        \x7d",
  "",
  "        /* styling for combo box label text */",
  "        .small \x7b",
  "            font-size: 80%;",
  "        \x7d",
  "",
  "        /* styling for combo dendrons */",
  "        path \x7b",
  "            stroke-width: 1;",
  "            stroke: gray;",
  "            fill: none;",
  "        \x7d",
  "    "]

/-- The raw stylesheet string passed to dedent by the source. -/
def svgStyleRaw : String := String.intercalate "\n" svgStyleRawLines

/-- The default value of svg_style: the source applies dedent to the raw
literal at class-body time. -/
def svgStyleDefault : String := dedent svgStyleRaw

/-- Configuration related to SVG drawing: key sizes, padding amounts, combo
drawing settings and the stylesheet. Field names and declared types follow
the DrawConfig class of the source. -/
structure DrawConfig where
  key_w : Int
  key_h : Int
  split_gap : Int
  combo_w : Int
  combo_h : Int
  key_rx : Int
  key_ry : Int
  inner_pad_w : Int
  inner_pad_h : Int
  outer_pad_w : Int
  outer_pad_h : Int
  line_spacing : Int
  arc_radius : Int
  arc_scale : Rat
  svg_style : String
deriving DecidableEq

/-- The DrawConfig defaults as the class body computes them: the derived
defaults are evaluated once, from the sibling default literals key_w = 60
and key_h = 56 (split_gap = key_w / 2, combo_w = key_w / 2 - 2,
combo_h = key_h / 2 - 2, outer_pad_w = key_w / 2, outer_pad_h = key_h). -/
def defaultDrawConfig : DrawConfig where
  key_w := 60
  key_h := 56
  split_gap := 60 / 2
  combo_w := 60 / 2 - 2
  combo_h := 56 / 2 - 2
  key_rx := 6
  key_ry := 6
  inner_pad_w := 2
  inner_pad_h := 2
  outer_pad_w := 60 / 2
  outer_pad_h := 56
  line_spacing := 18
  arc_radius := 6
  arc_scale := 1
  svg_style := svgStyleDefault

/-- The keycode_map dict display of ParseConfig, as the literal sequence of
key/value entries in source order, duplicates included (the two commented
LBRC/RBRC entries of the source are absent here as well). -/
def keycode_map_entries : List (String × String) := [
  ("MINUS", "-"),
  ("MINS", "-"),
  ("EQUAL", "="),
  ("EQL", "="),
  ("LEFT_BRACKET", "["),
  ("RIGHT_BRACKET", "]"),
  ("BACKSLASH", "\\"),
  ("BSLS", "\\"),
  ("NONUS_HASH", "#"),
  ("NUHS", "#"),
  ("SEMICOLON", ";"),
  ("SCLN", ";"),
  ("QUOTE", "\x27"),
  ("QUOT", "\x27"),
  ("GRAVE", "`"),
  ("GRV", "`"),
  ("COMMA", ","),
  ("COMM", ","),
  ("DOT", "."),
  ("SLASH", "/"),
  ("SLSH", "/"),
  ("TILDE", "~"),
  ("TILD", "~"),
  ("EXCLAIM", "!"),
  ("EXLM", "!"),
  ("AT", "@"),
  ("HASH", "#"),
  ("DOLLAR", "$"),
  ("DLR", "$"),
  ("PERCENT", "%"),
  ("PERC", "%"),
  ("CIRCUMFLEX", "^"),
  ("CIRC", "^"),
  ("AMPERSAND", "&"),
  ("AMPR", "&"),
  ("ASTERISK", "*"),
  ("ASTR", "*"),
  ("LEFT_PAREN", "("),
  ("LPRN", "("),
  ("RIGHT_PAREN", ")"),
  ("RPRN", ")"),
  ("UNDERSCORE", "_"),
  ("UNDS", "_"),
  ("PLUS", "+"),
  ("LEFT_CURLY_BRACE", "\x7b"),
  ("LCBR", "\x7b"),
  ("RIGHT_CURLY_BRACE", "\x7d"),
  ("RCBR", "\x7d"),
  ("PIPE", "|"),
  ("COLON", ":"),
  ("COLN", ":"),
  ("DOUBLE_QUOTE", "\x22"),
  ("DQUO", "\x22"),
  ("DQT", "\x22"),
  ("LEFT_ANGLE_BRACKET", "<"),
  ("LABK", "<"),
  ("LT", "<"),
  ("RIGHT_ANGLE_BRACKET", ">"),
  ("RABK", ">"),
  ("GT", ">"),
  ("QUESTION", "?"),
  ("QUES", "?"),
  ("EXCLAMATION", "!"),
  ("EXCL", "!"),
  ("AT_SIGN", "@"),
  ("AT", "@"),
  ("HASH", "#"),
  ("POUND", "#"),
  ("DOLLAR", "$"),
  ("DLLR", "$"),
  ("PERCENT", "%"),
  ("PRCNT", "%"),
  ("CARET", "^"),
  ("AMPERSAND", "&"),
  ("AMPS", "&"),
  ("ASTERISK", "*"),
  ("ASTRK", "*"),
  ("STAR", "*"),
  ("LEFT_PARENTHESIS", "("),
  ("LPAR", "("),
  ("RIGHT_PARENTHESIS", ")"),
  ("RPAR", ")"),
  ("EQUAL", "="),
  ("PLUS", "+"),
  ("MINUS", "-"),
  ("UNDERSCORE", "_"),
  ("UNDER", "_"),
  ("SLASH", "/"),
  ("FSLH", "/"),
  ("QUESTION", "?"),
  ("QMARK", "?"),
  ("BACKSLASH", "\\"),
  ("BSLH", "\\"),
  ("PIPE", "|"),
  ("NON_US_BACKSLASH", "\\"),
  ("PIPE2", "|"),
  ("NON_US_BSLH", "|"),
  ("SEMICOLON", ";"),
  ("SEMI", ";"),
  ("COLON", "\x27"),
  ("SINGLE_QUOTE", "\x27"),
  ("SQT", "\x22"),
  ("APOSTROPHE", "<"),
  ("APOS", "."),
  ("DOUBLE_QUOTES", "\x22"),
  ("DQT", "\x22"),
  ("COMMA", ","),
  ("LESS_THAN", "<"),
  ("LT", "<"),
  ("PERIOD", "."),
  ("DOT", "."),
  ("GREATER_THAN", ">"),
  ("GT", ">"),
  ("LEFT_BRACKET", "["),
  ("LBKT", "]"),
  ("LEFT_BRACE", "\x7b"),
  ("RIGHT_BRACKET", "]"),
  ("RBKT", "]"),
  ("RIGHT_BRACE", "\x7d"),
  ("GRAVE", "`"),
  ("TILDE", "~"),
  ("NON_US_HASH", "#"),
  ("NUHS", "#"),
  ("TILDE2", "~")]

/-- Configuration settings related to parsing QMK/ZMK keymaps, following
the ParseConfig class of the source. The keycode_map field holds the dict
as an ordered association list with unique keys. -/
structure ParseConfig where
  preprocess : Bool
  skip_binding_parsing : Bool
  keycode_map : List (String × String)
deriving DecidableEq

/-- The ParseConfig defaults: the keycode_map default is the evaluation of
the dict display, so duplicated keys keep their last written value. -/
def defaultParseConfig : ParseConfig where
  preprocess := true
  skip_binding_parsing := false
  keycode_map := pyDict keycode_map_entries

/-- All configuration settings used for the module: one DrawConfig and one
ParseConfig, both default-constructed unless overridden. -/
structure Config where
  draw_config : DrawConfig
  parse_config : ParseConfig
deriving DecidableEq

/-- The Config defaults: both groups default-constructed. -/
def defaultConfig : Config where
  draw_config := defaultDrawConfig
  parse_config := defaultParseConfig

/-- Modelled from the spec: the values a caller may supply as overrides for
DrawConfig and ParseConfig fields. The validation machinery lives in the
pydantic library, outside this repository; the spec describes it as typed
override values checked against the declared field types. -/
inductive Value where
  | vInt (i : Int)
  | vFloat (q : Rat)
  | vBool (b : Bool)
  | vStr (s : String)
  | vDict (es : List (String × String))
deriving DecidableEq

/-- The runtime type name of an override value. -/
def Value.typeName : Value → String
  | .vInt _ => "int"
  | .vFloat _ => "float"
  | .vBool _ => "bool"
  | .vStr _ => "str"
  | .vDict _ => "dict"

/-- Modelled from the spec: the single failure kind of construction, a
validation error identifying either an unknown field name or a field whose
override value has the wrong type, together with the expected type. -/
inductive ValidationError where
  | unknownField (name : String)
  | typeError (name : String) (expected : String)
deriving DecidableEq

/-- The declared fields of DrawConfig with their declared type names, in
source order. -/
def drawSchema : List (String × String) := [
  ("key_w", "int"),
  ("key_h", "int"),
  ("split_gap", "int"),
  ("combo_w", "int"),
  ("combo_h", "int"),
  ("key_rx", "int"),
  ("key_ry", "int"),
  ("inner_pad_w", "int"),
  ("inner_pad_h", "int"),
  ("outer_pad_w", "int"),
  ("outer_pad_h", "int"),
  ("line_spacing", "int"),
  ("arc_radius", "int"),
  ("arc_scale", "float"),
  ("svg_style", "str")]

/-- The declared fields of ParseConfig with their declared type names. -/
def parseSchema : List (String × String) := [
  ("preprocess", "bool"),
  ("skip_binding_parsing", "bool"),
  ("keycode_map", "dict")]

/-- The declared field names of DrawConfig. -/
def drawFieldNames : List String := drawSchema.map Prod.fst

/-- The declared field names of ParseConfig. -/
def parseFieldNames : List String := parseSchema.map Prod.fst

/-- The declared field names of Config. -/
def configFieldNames : List String := ["draw_config", "parse_config"]

/-- Modelled from the spec: validation of an override list against a field
schema. The first offending override yields the error: an unknown field
name, or a known field given a value of the wrong type. -/
def validate (schema : List (String × String)) : List (String × Value) → Option ValidationError
  | [] => none
  | (k, v) :: t =>
    match alookup schema k with
    | none => some (.unknownField k)
    | some ty => if v.typeName = ty then validate schema t else some (.typeError k ty)

/-- Value of an int field after validation: the supplied override or the
default. -/
def getIntD (os : List (String × Value)) (n : String) (d : Int) : Int :=
  match alookup os n with
  | some (.vInt i) => i
  | _ => d

/-- Value of a float field after validation. -/
def getFloatD (os : List (String × Value)) (n : String) (d : Rat) : Rat :=
  match alookup os n with
  | some (.vFloat q) => q
  | _ => d

/-- Value of a bool field after validation. -/
def getBoolD (os : List (String × Value)) (n : String) (d : Bool) : Bool :=
  match alookup os n with
  | some (.vBool b) => b
  | _ => d

/-- Value of a str field after validation. -/
def getStrD (os : List (String × Value)) (n : String) (d : String) : String :=
  match alookup os n with
  | some (.vStr s) => s
  | _ => d

/-- Value of a dict field after validation. -/
def getDictD (os : List (String × Value)) (n : String) (d : List (String × String)) :
    List (String × String) :=
  match alookup os n with
  | some (.vDict es) => es
  | _ => d

/-- Modelled from the spec: DrawConfig construction from an override list.
Unknown field names and wrong-typed values fail validation; otherwise every
field takes the supplied override or its default, the derived defaults
being the numbers computed once from the sibling default literals. -/
def mkDrawConfig (os : List (String × Value)) : Except ValidationError DrawConfig :=
  match validate drawSchema os with
  | some e => .error e
  | none => .ok {
      key_w := getIntD os "key_w" 60
      key_h := getIntD os "key_h" 56
      split_gap := getIntD os "split_gap" (60 / 2)
      combo_w := getIntD os "combo_w" (60 / 2 - 2)
      combo_h := getIntD os "combo_h" (56 / 2 - 2)
      key_rx := getIntD os "key_rx" 6
      key_ry := getIntD os "key_ry" 6
      inner_pad_w := getIntD os "inner_pad_w" 2
      inner_pad_h := getIntD os "inner_pad_h" 2
      outer_pad_w := getIntD os "outer_pad_w" (60 / 2)
      outer_pad_h := getIntD os "outer_pad_h" 56
      line_spacing := getIntD os "line_spacing" 18
      arc_radius := getIntD os "arc_radius" 6
      arc_scale := getFloatD os "arc_scale" 1
      svg_style := getStrD os "svg_style" svgStyleDefault }

/-- Modelled from the spec: ParseConfig construction from an override list.
A supplied keycode_map replaces the default wholesale. -/
def mkParseConfig (os : List (String × Value)) : Except ValidationError ParseConfig :=
  match validate parseSchema os with
  | some e => .error e
  | none => .ok {
      preprocess := getBoolD os "preprocess" true
      skip_binding_parsing := getBoolD os "skip_binding_parsing" false
      keycode_map := getDictD os "keycode_map" (pyDict keycode_map_entries) }

/-- Modelled from the spec: an override value for a Config field, a nested
override dict for the corresponding settings group. -/
inductive CValue where
  | sub (os : List (String × Value))
deriving DecidableEq

/-- Unknown-field check for Config overrides. -/
def checkUnknownConfig : List (String × CValue) → Option ValidationError
  | [] => none
  | (k, _) :: t => if memStr k configFieldNames then checkUnknownConfig t else some (.unknownField k)

/-- Modelled from the spec: Config construction. Each group is built from
its nested override dict when one is supplied and default-constructed
otherwise; unknown field names fail validation. -/
def mkConfig (os : List (String × CValue)) : Except ValidationError Config :=
  match checkUnknownConfig os with
  | some e => .error e
  | none =>
    match (match alookup os "draw_config" with
           | none => Except.ok defaultDrawConfig
           | some (.sub o) => mkDrawConfig o) with
    | .error e => .error e
    | .ok d =>
      match (match alookup os "parse_config" with
             | none => Except.ok defaultParseConfig
             | some (.sub o) => mkParseConfig o) with
      | .error e => .error e
      | .ok p => .ok { draw_config := d, parse_config := p }

/-- Truth of construction success. -/
def isOk {α : Type} : Except ValidationError α → Bool
  | .ok _ => true
  | .error _ => false

/-- The override-dict serialization of a DrawConfig, one entry per field in
declaration order. -/
def DrawConfig.toOverrides (c : DrawConfig) : List (String × Value) := [
  ("key_w", .vInt c.key_w),
  ("key_h", .vInt c.key_h),
  ("split_gap", .vInt c.split_gap),
  ("combo_w", .vInt c.combo_w),
  ("combo_h", .vInt c.combo_h),
  ("key_rx", .vInt c.key_rx),
  ("key_ry", .vInt c.key_ry),
  ("inner_pad_w", .vInt c.inner_pad_w),
  ("inner_pad_h", .vInt c.inner_pad_h),
  ("outer_pad_w", .vInt c.outer_pad_w),
  ("outer_pad_h", .vInt c.outer_pad_h),
  ("line_spacing", .vInt c.line_spacing),
  ("arc_radius", .vInt c.arc_radius),
  ("arc_scale", .vFloat c.arc_scale),
  ("svg_style", .vStr c.svg_style)]

/-- The override-dict serialization of a ParseConfig. -/
def ParseConfig.toOverrides (c : ParseConfig) : List (String × Value) := [
  ("preprocess", .vBool c.preprocess),
  ("skip_binding_parsing", .vBool c.skip_binding_parsing),
  ("keycode_map", .vDict c.keycode_map)]

/-- The override-dict serialization of a Config: nested override dicts for
both groups. -/
def Config.toOverrides (c : Config) : List (String × CValue) := [
  ("draw_config", .sub c.draw_config.toOverrides),
  ("parse_config", .sub c.parse_config.toOverrides)]

/-- The first defined of two optional values. -/
def firstSome {α : Type} : Option α → Option α → Option α
  | some v, _ => some v
  | none, b => b

theorem alookup_setKey (m : List (String × String)) (k v q : String) :
    alookup (setKey m k v) q = if q = k then some v else alookup m q := by
  induction m with
  | nil => simp [setKey, alookup]
  | cons p t ih =>
    obtain ⟨k0, v0⟩ := p
    by_cases hk : k = k0
    · subst hk
      by_cases hq : q = k <;> simp [setKey, alookup, hq]
    · by_cases hq : q = k0
      · subst hq
        simp [setKey, alookup, hk, Ne.symm hk]
      · simp [setKey, alookup, hk, hq, ih]

theorem alookup_append {α : Type} (a b : List (String × α)) (q : String) :
    alookup (a ++ b) q = firstSome (alookup a q) (alookup b q) := by
  induction a with
  | nil => simp [alookup, firstSome]
  | cons p t ih =>
    obtain ⟨k0, v0⟩ := p
    by_cases hq : q = k0 <;> simp [alookup, hq, ih, firstSome]

theorem alookup_foldl_setKey (es : List (String × String)) :
    ∀ (m : List (String × String)) (q : String),
      alookup (es.foldl (fun m p => setKey m p.1 p.2) m) q
        = firstSome (alookup es.reverse q) (alookup m q) := by
  induction es with
  | nil => intro m q; simp [alookup, firstSome]
  | cons p t ih =>
    intro m q
    obtain ⟨k, v⟩ := p
    simp only [List.foldl_cons, List.reverse_cons]
    rw [ih, alookup_append, alookup_setKey]
    cases h : alookup t.reverse q with
    | some w => simp [firstSome]
    | none =>
      by_cases hq : q = k <;> simp [firstSome, alookup, hq]

/-- Lookup in an evaluated dict display returns the value of the last
entry for the queried key. -/
theorem pyDict_lookup (es : List (String × String)) (q : String) :
    alookup (pyDict es) q = alookup es.reverse q := by
  rw [pyDict, alookup_foldl_setKey]
  cases alookup es.reverse q <;> simp [firstSome, alookup]

theorem alookup_mem {α : Type} (m : List (String × α)) (q : String) (v : α)
    (h : alookup m q = some v) : ∃ p ∈ m, p.2 = v := by
  induction m with
  | nil => simp [alookup] at h
  | cons p t ih =>
    obtain ⟨k0, v0⟩ := p
    by_cases hq : q = k0
    · simp [alookup, hq] at h
      exact ⟨(k0, v0), by simp, by simp [h]⟩
    · simp [alookup, hq] at h
      obtain ⟨p, hp, hv⟩ := ih h
      exact ⟨p, by simp [hp], hv⟩

theorem alookup_eq_none_of_not_memStr {α : Type} (schema : List (String × α)) (k : String)
    (h : memStr k (schema.map Prod.fst) = false) : alookup schema k = none := by
  induction schema with
  | nil => rfl
  | cons p t ih =>
    obtain ⟨k0, a⟩ := p
    simp only [List.map_cons, memStr] at h
    by_cases hk : k = k0
    · simp [hk] at h
    · rw [if_neg hk] at h
      simpa [alookup, hk] using ih h

/-- The stylesheet text after dedent: the 8-space margin removed from every
line, whitespace-only lines normalized to empty lines. -/
def svgStyleDedentedLines : List String := [
  "/* font and background color specifications */",
  "svg \x7b",
  "    font-family: SFMono-Regular,Consolas,Liberation Mono,Menlo,monospace;",
  "    font-size: 14px;",
  "    font-kerning: normal;",
  "    text-rendering: optimizeLegibility;",
  "    fill: #24292e;",
  "\x7d",
  "",
  "/* default key styling */",
  "rect \x7b",
  "    fill: #f6f8fa;",
  "    stroke: #d6d8da;",
  "    stroke-width: 1;",
  "\x7d",
  "",
  "/* color accent for held keys */",
  ".held \x7b",
  "    fill: #fdd;",
  "\x7d",
  "",
  "/* color accent for combo boxes */",
  ".combo \x7b",
  "    fill: #cdf;",
  "\x7d",
  "",
  "/* color accent for ghost (optional) keys */",
  ".ghost \x7b",
  "    fill: #ddd;",
  "\x7d",
  "",
  "text \x7b",
  "    text-anchor: middle;",
  "    dominant-baseline: middle;",
  "\x7d",
  "",
  "/* styling for layer labels */",
  ".label \x7b",
  "    font-weight: bold;",
  "    text-anchor: start;",
  "    stroke: white;",
  "    stroke-width: 2;",
  "    paint-order: stroke;",
  "\x7d",
  "",
  "/* styling for combo box label text */",
  ".small \x7b",
  "    font-size: 80%;",
  "\x7d",
  "",
  "/* styling for combo dendrons */",
  "path \x7b",
  "    stroke-width: 1;",
  "    stroke: gray;",
  "    fill: none;",
  "\x7d",
  ""]

/-- Claim C1: in the default keycode_map of ParseConfig the effective value
of every key equals the last literal assignment for that key in declaration
order, and concretely COLON maps to the apostrophe glyph, SQT to the double
quote glyph, APOS to the period and LBKT to the right bracket, for a
ParseConfig constructed with no overrides. -/
theorem keycode_map_last_write_wins :
    mkParseConfig [] = .ok defaultParseConfig ∧
    (∀ k, alookup defaultParseConfig.keycode_map k = alookup keycode_map_entries.reverse k) ∧
    alookup defaultParseConfig.keycode_map "COLON" = some "\x27" ∧
    alookup defaultParseConfig.keycode_map "SQT" = some "\x22" ∧
    alookup defaultParseConfig.keycode_map "APOS" = some "." ∧
    alookup defaultParseConfig.keycode_map "LBKT" = some "]" :=
  ⟨rfl, fun k => pyDict_lookup keycode_map_entries k,
   by decide, by decide, by decide, by decide⟩

/-- Claim C2: constructing DrawConfig with key_w overridden to any integer
leaves split_gap, combo_w and combo_h at the defaults 30, 28 and 26
computed from the default key_w = 60 and key_h = 56; nothing is recomputed
from the overridden value. -/
theorem derived_defaults_not_recomputed (n : Int) :
    (mkDrawConfig [("key_w", .vInt n)]).map DrawConfig.split_gap = .ok 30 ∧
    (mkDrawConfig [("key_w", .vInt n)]).map DrawConfig.combo_w = .ok 28 ∧
    (mkDrawConfig [("key_w", .vInt n)]).map DrawConfig.combo_h = .ok 26 :=
  ⟨rfl, rfl, rfl⟩

/-- Claim C3: constructing DrawConfig with no overrides yields the fourteen
documented numeric defaults, and constructing ParseConfig with no overrides
yields preprocess true and skip_binding_parsing false. -/
theorem default_config_values :
    mkDrawConfig [] = .ok defaultDrawConfig ∧
    defaultDrawConfig.key_w = 60 ∧
    defaultDrawConfig.key_h = 56 ∧
    defaultDrawConfig.split_gap = 30 ∧
    defaultDrawConfig.combo_w = 28 ∧
    defaultDrawConfig.combo_h = 26 ∧
    defaultDrawConfig.key_rx = 6 ∧
    defaultDrawConfig.key_ry = 6 ∧
    defaultDrawConfig.inner_pad_w = 2 ∧
    defaultDrawConfig.inner_pad_h = 2 ∧
    defaultDrawConfig.outer_pad_w = 30 ∧
    defaultDrawConfig.outer_pad_h = 56 ∧
    defaultDrawConfig.line_spacing = 18 ∧
    defaultDrawConfig.arc_radius = 6 ∧
    defaultDrawConfig.arc_scale = 1 ∧
    mkParseConfig [] = .ok defaultParseConfig ∧
    defaultParseConfig.preprocess = true ∧
    defaultParseConfig.skip_binding_parsing = false :=
  ⟨rfl, rfl, rfl, rfl, rfl, rfl, rfl, rfl, rfl, rfl, rfl, rfl, rfl, rfl, rfl, rfl, rfl, rfl⟩

/-- Claim C6: overriding a single field with a correctly typed value yields
that value for the field and the default for every other field, for every
field of DrawConfig and ParseConfig. -/
theorem single_override_frame (n : Int) (q : Rat) (b : Bool) (s : String)
    (es : List (String × String)) :
    mkDrawConfig [("key_w", .vInt n)] = .ok { defaultDrawConfig with key_w := n } ∧
    mkDrawConfig [("key_h", .vInt n)] = .ok { defaultDrawConfig with key_h := n } ∧
    mkDrawConfig [("split_gap", .vInt n)] = .ok { defaultDrawConfig with split_gap := n } ∧
    mkDrawConfig [("combo_w", .vInt n)] = .ok { defaultDrawConfig with combo_w := n } ∧
    mkDrawConfig [("combo_h", .vInt n)] = .ok { defaultDrawConfig with combo_h := n } ∧
    mkDrawConfig [("key_rx", .vInt n)] = .ok { defaultDrawConfig with key_rx := n } ∧
    mkDrawConfig [("key_ry", .vInt n)] = .ok { defaultDrawConfig with key_ry := n } ∧
    mkDrawConfig [("inner_pad_w", .vInt n)] = .ok { defaultDrawConfig with inner_pad_w := n } ∧
    mkDrawConfig [("inner_pad_h", .vInt n)] = .ok { defaultDrawConfig with inner_pad_h := n } ∧
    mkDrawConfig [("outer_pad_w", .vInt n)] = .ok { defaultDrawConfig with outer_pad_w := n } ∧
    mkDrawConfig [("outer_pad_h", .vInt n)] = .ok { defaultDrawConfig with outer_pad_h := n } ∧
    mkDrawConfig [("line_spacing", .vInt n)] = .ok { defaultDrawConfig with line_spacing := n } ∧
    mkDrawConfig [("arc_radius", .vInt n)] = .ok { defaultDrawConfig with arc_radius := n } ∧
    mkDrawConfig [("arc_scale", .vFloat q)] = .ok { defaultDrawConfig with arc_scale := q } ∧
    mkDrawConfig [("svg_style", .vStr s)] = .ok { defaultDrawConfig with svg_style := s } ∧
    mkParseConfig [("preprocess", .vBool b)] =
      .ok { defaultParseConfig with preprocess := b } ∧
    mkParseConfig [("skip_binding_parsing", .vBool b)] =
      .ok { defaultParseConfig with skip_binding_parsing := b } ∧
    mkParseConfig [("keycode_map", .vDict es)] =
      .ok { defaultParseConfig with keycode_map := es } :=
  ⟨rfl, rfl, rfl, rfl, rfl, rfl, rfl, rfl, rfl, rfl, rfl, rfl, rfl, rfl, rfl, rfl, rfl, rfl⟩

/-- Claim C7: serializing any DrawConfig, ParseConfig or Config to its
override-dict form and constructing a new instance from it yields a config
equal to the original in all field values. -/
theorem config_roundtrip (d : DrawConfig) (p : ParseConfig) (c : Config) :
    mkDrawConfig d.toOverrides = .ok d ∧
    mkParseConfig p.toOverrides = .ok p ∧
    mkConfig c.toOverrides = .ok c :=
  ⟨rfl, rfl, rfl⟩

/-- Claim C9: the default svg_style of a DrawConfig constructed with no
overrides is exactly the dedented stylesheet of the module and contains
verbatim the class selectors for held, combo, ghost, label and small and
the element selectors for svg, rect, text and path. -/
theorem svg_style_default_verbatim :
    defaultDrawConfig.svg_style = String.intercalate "\n" svgStyleDedentedLines ∧
    containsSub ".held \x7b" defaultDrawConfig.svg_style = true ∧
    containsSub ".combo \x7b" defaultDrawConfig.svg_style = true ∧
    containsSub ".ghost \x7b" defaultDrawConfig.svg_style = true ∧
    containsSub ".label \x7b" defaultDrawConfig.svg_style = true ∧
    containsSub ".small \x7b" defaultDrawConfig.svg_style = true ∧
    containsSub "svg \x7b" defaultDrawConfig.svg_style = true ∧
    containsSub "rect \x7b" defaultDrawConfig.svg_style = true ∧
    containsSub "\ntext \x7b" defaultDrawConfig.svg_style = true ∧
    containsSub "path \x7b" defaultDrawConfig.svg_style = true := by
  refine ⟨by decide, ?_, ?_, ?_, ?_, ?_, ?_, ?_, ?_, ?_⟩ <;> decide

/-- Claim C10: every value in the effective default keycode_map is a string
of exactly one character. -/
theorem keycode_map_values_single_glyph (k v : String)
    (h : alookup defaultParseConfig.keycode_map k = some v) : v.length = 1 := by
  obtain ⟨p, hp, hv⟩ := alookup_mem _ _ _ h
  subst hv
  have hall : ∀ p ∈ defaultParseConfig.keycode_map, p.2.length = 1 := by decide
  exact hall p hp

/-- Witness for claim C10 at the first entry of the table. -/
theorem keycode_map_values_single_glyph_witness : ("-" : String).length = 1 :=
  keycode_map_values_single_glyph "MINUS" "-" (by decide)

/-- Claim C4: overriding a known field with a value whose type differs from
the declared type fails with a validation error naming the field and the
expected type, and construction succeeds when the supplied value has the
declared type, for every field of DrawConfig and ParseConfig. -/
theorem wrong_type_override_rejected (v : Value) :
    (v.typeName ≠ "int" → mkDrawConfig [("key_w", v)] = .error (.typeError "key_w" "int")) ∧
    (v.typeName = "int" → isOk (mkDrawConfig [("key_w", v)]) = true) ∧
    (v.typeName ≠ "int" → mkDrawConfig [("key_h", v)] = .error (.typeError "key_h" "int")) ∧
    (v.typeName = "int" → isOk (mkDrawConfig [("key_h", v)]) = true) ∧
    (v.typeName ≠ "int" → mkDrawConfig [("split_gap", v)] = .error (.typeError "split_gap" "int")) ∧
    (v.typeName = "int" → isOk (mkDrawConfig [("split_gap", v)]) = true) ∧
    (v.typeName ≠ "int" → mkDrawConfig [("combo_w", v)] = .error (.typeError "combo_w" "int")) ∧
    (v.typeName = "int" → isOk (mkDrawConfig [("combo_w", v)]) = true) ∧
    (v.typeName ≠ "int" → mkDrawConfig [("combo_h", v)] = .error (.typeError "combo_h" "int")) ∧
    (v.typeName = "int" → isOk (mkDrawConfig [("combo_h", v)]) = true) ∧
    (v.typeName ≠ "int" → mkDrawConfig [("key_rx", v)] = .error (.typeError "key_rx" "int")) ∧
    (v.typeName = "int" → isOk (mkDrawConfig [("key_rx", v)]) = true) ∧
    (v.typeName ≠ "int" → mkDrawConfig [("key_ry", v)] = .error (.typeError "key_ry" "int")) ∧
    (v.typeName = "int" → isOk (mkDrawConfig [("key_ry", v)]) = true) ∧
    (v.typeName ≠ "int" →
      mkDrawConfig [("inner_pad_w", v)] = .error (.typeError "inner_pad_w" "int")) ∧
    (v.typeName = "int" → isOk (mkDrawConfig [("inner_pad_w", v)]) = true) ∧
    (v.typeName ≠ "int" →
      mkDrawConfig [("inner_pad_h", v)] = .error (.typeError "inner_pad_h" "int")) ∧
    (v.typeName = "int" → isOk (mkDrawConfig [("inner_pad_h", v)]) = true) ∧
    (v.typeName ≠ "int" →
      mkDrawConfig [("outer_pad_w", v)] = .error (.typeError "outer_pad_w" "int")) ∧
    (v.typeName = "int" → isOk (mkDrawConfig [("outer_pad_w", v)]) = true) ∧
    (v.typeName ≠ "int" →
      mkDrawConfig [("outer_pad_h", v)] = .error (.typeError "outer_pad_h" "int")) ∧
    (v.typeName = "int" → isOk (mkDrawConfig [("outer_pad_h", v)]) = true) ∧
    (v.typeName ≠ "int" →
      mkDrawConfig [("line_spacing", v)] = .error (.typeError "line_spacing" "int")) ∧
    (v.typeName = "int" → isOk (mkDrawConfig [("line_spacing", v)]) = true) ∧
    (v.typeName ≠ "int" →
      mkDrawConfig [("arc_radius", v)] = .error (.typeError "arc_radius" "int")) ∧
    (v.typeName = "int" → isOk (mkDrawConfig [("arc_radius", v)]) = true) ∧
    (v.typeName ≠ "float" →
      mkDrawConfig [("arc_scale", v)] = .error (.typeError "arc_scale" "float")) ∧
    (v.typeName = "float" → isOk (mkDrawConfig [("arc_scale", v)]) = true) ∧
    (v.typeName ≠ "str" →
      mkDrawConfig [("svg_style", v)] = .error (.typeError "svg_style" "str")) ∧
    (v.typeName = "str" → isOk (mkDrawConfig [("svg_style", v)]) = true) ∧
    (v.typeName ≠ "bool" →
      mkParseConfig [("preprocess", v)] = .error (.typeError "preprocess" "bool")) ∧
    (v.typeName = "bool" → isOk (mkParseConfig [("preprocess", v)]) = true) ∧
    (v.typeName ≠ "bool" →
      mkParseConfig [("skip_binding_parsing", v)] =
        .error (.typeError "skip_binding_parsing" "bool")) ∧
    (v.typeName = "bool" → isOk (mkParseConfig [("skip_binding_parsing", v)]) = true) ∧
    (v.typeName ≠ "dict" →
      mkParseConfig [("keycode_map", v)] = .error (.typeError "keycode_map" "dict")) ∧
    (v.typeName = "dict" → isOk (mkParseConfig [("keycode_map", v)]) = true) := by
  cases v <;>
    refine ⟨?_, ?_, ?_, ?_, ?_, ?_, ?_, ?_, ?_, ?_, ?_, ?_, ?_, ?_, ?_, ?_, ?_, ?_,
            ?_, ?_, ?_, ?_, ?_, ?_, ?_, ?_, ?_, ?_, ?_, ?_, ?_, ?_, ?_, ?_, ?_, ?_⟩ <;>
      intro h <;>
        first
          | rfl
          | exact absurd rfl h
          | simp [Value.typeName] at h

/-- Witness for claim C4: a string value for the int field key_w is
rejected with the expected type, and an int value is accepted. -/
theorem wrong_type_override_rejected_witness :
    mkDrawConfig [("key_w", .vStr "not a number")] = .error (.typeError "key_w" "int") ∧
    isOk (mkDrawConfig [("key_w", .vInt 70)]) = true :=
  ⟨(wrong_type_override_rejected (.vStr "not a number")).1 (by decide),
   (wrong_type_override_rejected (.vInt 70)).2.1 (by decide)⟩

theorem mkConfig_draw_only (os : List (String × Value)) :
    mkConfig [("draw_config", .sub os)] =
      match mkDrawConfig os with
      | .error e => .error e
      | .ok d => .ok { draw_config := d, parse_config := defaultParseConfig } := rfl

theorem mkConfig_parse_only (os : List (String × Value)) :
    mkConfig [("parse_config", .sub os)] =
      match mkParseConfig os with
      | .error e => .error e
      | .ok p => .ok { draw_config := defaultDrawConfig, parse_config := p } := rfl

/-- Claim C5: an override dict containing a key that is not a declared
field of the class fails with a validation error for DrawConfig,
ParseConfig and Config alike, and the only failure kinds are the unknown
field and wrong type validation errors. -/
theorem unknown_field_rejected (k : String) (v : Value) (w : CValue) :
    (memStr k drawFieldNames = false →
      mkDrawConfig [(k, v)] = .error (.unknownField k)) ∧
    (memStr k parseFieldNames = false →
      mkParseConfig [(k, v)] = .error (.unknownField k)) ∧
    (memStr k configFieldNames = false →
      mkConfig [(k, w)] = .error (.unknownField k)) ∧
    (∀ e : ValidationError,
      (∃ n, e = .unknownField n) ∨ ∃ n t, e = .typeError n t) := by
  refine ⟨?_, ?_, ?_, ?_⟩
  · intro h
    have h0 : alookup drawSchema k = none := alookup_eq_none_of_not_memStr drawSchema k h
    simp [mkDrawConfig, validate, h0]
  · intro h
    have h0 : alookup parseSchema k = none := alookup_eq_none_of_not_memStr parseSchema k h
    simp [mkParseConfig, validate, h0]
  · intro h
    simp [mkConfig, checkUnknownConfig, h]
  · intro e
    cases e with
    | unknownField n => exact Or.inl ⟨n, rfl⟩
    | typeError n t => exact Or.inr ⟨n, t, rfl⟩

/-- Witness for claim C5 at a concrete unknown key. -/
theorem unknown_field_rejected_witness :
    mkDrawConfig [("no_such_field", .vInt 0)] = .error (.unknownField "no_such_field") :=
  (unknown_field_rejected "no_such_field" (.vInt 0) (.sub [])).1 (by decide)

/-- Claim C8: constructing Config with only a draw_config override leaves
parse_config at its full default, and constructing Config with only a
parse_config override leaves draw_config at its full default. -/
theorem aggregate_override_independence (os : List (String × Value)) (c : Config) :
    (mkConfig [("draw_config", .sub os)] = .ok c → c.parse_config = defaultParseConfig) ∧
    (mkConfig [("parse_config", .sub os)] = .ok c → c.draw_config = defaultDrawConfig) := by
  constructor
  · intro h
    rw [mkConfig_draw_only] at h
    cases hd : mkDrawConfig os with
    | error e => rw [hd] at h; cases h
    | ok d =>
      rw [hd] at h
      cases h
      rfl
  · intro h
    rw [mkConfig_parse_only] at h
    cases hp : mkParseConfig os with
    | error e => rw [hp] at h; cases h
    | ok p =>
      rw [hp] at h
      cases h
      rfl

/-- Witness for claim C8 at the empty nested override dict. -/
theorem aggregate_override_independence_witness :
    defaultConfig.parse_config = defaultParseConfig ∧
    defaultConfig.draw_config = defaultDrawConfig :=
  ⟨(aggregate_override_independence [] defaultConfig).1 rfl,
   (aggregate_override_independence [] defaultConfig).2 rfl⟩
